import Mathlib

/-!
Verification of the dependency-resolution and download-caching logic of
src/android/lib/AndroidDependencies.js, shallowly embedded in Lean 4.

The embedding follows the source file closely.  Asynchronous callback
invocations are recorded as explicit lists of the argument pairs the code
passes to the callback; uncaught exceptions are recorded in a field
named raised.  External collaborators that are not part of the staged
sources (Downloader, DownloadHandler, IndexParser) enter as parameters or
as definitions explicitly modelled from the specification.
-/

namespace AndroidDeps

/-- The base URL constant of the module (source line 13). -/
def BASE_URL : String :=
  "https://download.01.org/crosswalk/releases/crosswalk/android/"

/-- The module-level list of release channels, in preferred search order
(source line 16). -/
def CHANNELS : List String := ["stable", "beta", "canary"]

/-- Truthiness of an optional JavaScript string value: undefined (absent)
and the empty string are falsy, every other string is truthy. -/
def truthy : Option String → Bool
  | none => false
  | some s => !s.isEmpty

/-- The state of an AndroidDependencies instance: the channel field is set
only when the constructor argument was truthy and valid. -/
structure Resolver where
  channel : Option String
  deriving Repr, DecidableEq

/-- The AndroidDependencies constructor (source lines 47..59).  When the
channel argument is truthy it is looked up in CHANNELS and an unknown value
raises InvalidChannelError, modelled as the error branch carrying the
message the code builds; a falsy channel argument (absent or the empty
string) skips the validation block entirely and the channel field stays
unset. -/
def construct (channel : Option String) : Except String Resolver :=
  if truthy channel then
    match channel with
    | some c =>
        if CHANNELS.contains c then Except.ok { channel := some c }
        else Except.error ("Unknown channel " ++ c)
    | none => Except.ok { channel := none }
  else
    Except.ok { channel := none }

/-- The derived artifact filename for a version (source lines 130 and 157). -/
def crosswalkFilename (version : String) : String :=
  "crosswalk-" ++ version ++ ".zip"

/-- The findLocally method (source lines 127..140).  The fileExists
parameter embeds the synchronous existence test ShellJS.test with the -f
flag; the method itself only reads it and builds strings. -/
def findLocally (fileExists : String → Bool) (version : String) : Option String :=
  let filename := crosswalkFilename version
  if fileExists filename then some filename
  else if fileExists ("../" ++ filename) then some ("../" ++ filename)
  else none

/-- Observable outcome of one fetchVersions call: the list of argument
pairs (versions, errormsg) passed to the completion callback, and any
uncaught exception escaping the asynchronous completion handler. -/
structure FetchOutcome where
  callbackCalls : List (Option (List String) × Option String)
  raised : Option String
  deriving Repr, DecidableEq

/-- Modelled from the spec: the result of the IndexParser collaborator
(src/lib/IndexParser.js is not among the staged sources).  Per the
specification it parses the response body into an ordered list of version
strings, and a malformed listing fails with a human-readable message. -/
abbrev ParseResult := Except String (List String)

/-- The fetchVersions method (source lines 80..120).  The getResult
parameter is the argument the Downloader collaborator passes to the
completion handler (an error message, or nothing on success); parseResult
is the outcome of parser.parse() on the buffered response body.  On a
transfer error the callback receives (null, errormsg).  On success the
code calls parser.parse() with no surrounding exception handler and passes
the parsed versions straight to the callback, so a failing parse
propagates out of the asynchronous completion handler uncaught. -/
def fetchVersions (getResult : Option String) (parseResult : ParseResult) : FetchOutcome :=
  match getResult with
  | some errormsg => { callbackCalls := [(none, some errormsg)], raised := none }
  | none =>
      match parseResult with
      | Except.ok versions => { callbackCalls := [(some versions, none)], raised := none }
      | Except.error msg => { callbackCalls := [], raised := some msg }

/-- Modelled from the spec: the path joining used by the DownloadHandler
collaborator when probing a candidate directory for the artifact file.
Joining the empty directory entry (the current directory) yields the bare
filename. -/
def joinPath (dir file : String) : String :=
  if dir.isEmpty then file else dir ++ "/" ++ file

/-- Modelled from the spec: DownloadHandler findLocally
(src/lib/DownloadHandler.js is not among the staged sources) searches a
list of candidate directories for an existing file of the given name, in
order, first match wins; the lookup is a pure existence check. -/
def handlerFindLocally (fileExists : String → Bool) (dirs : List String)
    (filename : String) : Option String :=
  match dirs with
  | [] => none
  | d :: rest =>
      if fileExists (joinPath d filename) then some (joinPath d filename)
      else handlerFindLocally fileExists rest filename

/-- The candidate directory list built by download (source lines 165..167):
the destination directory, the current directory (the empty string), and,
when the CROSSWALK_APP_TOOLS_CACHE_DIR environment variable holds a truthy
value, that cache directory. -/
def candidateDirs (defaultPath : String) (cacheDirEnv : Option String) : List String :=
  [defaultPath, ""] ++ (if truthy cacheDirEnv then cacheDirEnv.toList else [])

/-- The ambient state a download call reads: the filesystem existence
check, the cache-directory environment variable, whether the
DownloadHandler createStream call succeeds (its documented failure is the
FileCreationFailed throw of source line 147), and the argument the
Downloader passes to the completion handler when a transfer runs. -/
structure DownloadEnv where
  fileExists : String → Bool
  cacheDirEnv : Option String
  createStreamOk : Bool
  getResult : Option String

/-- Observable outcome of one download call: the callback argument pairs
(path, errormsg), whether a Downloader was constructed (and hence a
network request issued), the URL it was constructed on, whether the
handler finish step (rename into place) ran, and any uncaught exception. -/
structure DownloadOutcome where
  callbackCalls : List (Option String × Option String)
  downloaderConstructed : Bool
  urlRequested : Option String
  finishInvoked : Bool
  raised : Option String
  deriving Repr, DecidableEq

/-- String rendering of the channel field under JavaScript concatenation:
an unset field renders as the text undefined. -/
def channelStr (r : Resolver) : String :=
  match r.channel with
  | some c => c
  | none => "undefined"

/-- The download method (source lines 149..198).  It derives the filename
and the canonical URL, searches the candidate directories for an existing
copy and on a hit passes that path to the callback and returns without
touching the network; otherwise it creates the destination stream (the
documented FileCreationFailed throw when that fails, source line 147, in
which case the callback is never reached), constructs a Downloader on the
URL and transfers; a transfer error reaches the callback as (null,
errormsg) with no finish step, and success runs handler.finish and passes
the finished path to the callback.  The finish step is modelled from the
spec: it renames the temporary file into place in the destination
directory, yielding the joined destination path. -/
def download (env : DownloadEnv) (r : Resolver) (version defaultPath : String) :
    DownloadOutcome :=
  let filename := crosswalkFilename version
  let url := BASE_URL ++ channelStr r ++ "/" ++ version ++ "/" ++ filename
  let localDirs := candidateDirs defaultPath env.cacheDirEnv
  match handlerFindLocally env.fileExists localDirs filename with
  | some localPath =>
      { callbackCalls := [(some localPath, none)]
        downloaderConstructed := false
        urlRequested := none
        finishInvoked := false
        raised := none }
  | none =>
      if env.createStreamOk then
        match env.getResult with
        | some errormsg =>
            { callbackCalls := [(none, some errormsg)]
              downloaderConstructed := true
              urlRequested := some url
              finishInvoked := false
              raised := none }
        | none =>
            { callbackCalls := [(some (joinPath defaultPath filename), none)]
              downloaderConstructed := true
              urlRequested := some url
              finishInvoked := true
              raised := none }
      else
        { callbackCalls := []
          downloaderConstructed := false
          urlRequested := none
          finishInvoked := false
          raised := some "FileCreationFailed" }

/-- The module state carrying the CHANNELS array the static property
closes over. -/
structure ModuleState where
  channels : List String
  deriving Repr, DecidableEq

/-- The module state at load time: CHANNELS as initialised on source
line 16. -/
def initialModuleState : ModuleState := { channels := CHANNELS }

/-- The getter of the static CHANNELS property (source lines 68..70). -/
def getCHANNELS (s : ModuleState) : List String := s.channels

/-- The setter of the static CHANNELS property (source lines 71..73): its
body is empty because the property is read-only, so the state is returned
unchanged. -/
def setCHANNELS (_config : List String) (s : ModuleState) : ModuleState := s

/-- Concrete ambient state used by witnesses: exactly one file exists, the
artifact for version 1.0 inside the directory dl. -/
def fsHit : String → Bool := fun s => s == "dl/crosswalk-1.0.zip"

/-- Concrete ambient state used by witnesses: no file exists. -/
def fsMiss : String → Bool := fun _ => false

/-- Witness environment with a cache hit in the destination directory. -/
def envHit : DownloadEnv :=
  { fileExists := fsHit, cacheDirEnv := none, createStreamOk := true, getResult := none }

/-- Witness environment with no local copy and a failing transfer. -/
def envErr : DownloadEnv :=
  { fileExists := fsMiss, cacheDirEnv := none, createStreamOk := true
    getResult := some "Network error" }

/-- Witness environment with no local copy and a successful transfer. -/
def envMissOk : DownloadEnv :=
  { fileExists := fsMiss, cacheDirEnv := none, createStreamOk := true, getResult := none }

/-- Witness environment with no local copy where stream creation fails. -/
def envNoStream : DownloadEnv :=
  { fileExists := fsMiss, cacheDirEnv := none, createStreamOk := false, getResult := none }

theorem handlerFindLocally_found (fe : String → Bool) (fn : String) :
    ∀ (dirs : List String) (p : String),
      handlerFindLocally fe dirs fn = some p → fe p = true := by
  intro dirs
  induction dirs with
  | nil =>
      intro p h
      simp [handlerFindLocally] at h
  | cons d rest ih =>
      intro p h
      cases hfe : fe (joinPath d fn) with
      | true =>
          simp [handlerFindLocally, hfe] at h
          rw [← h]
          exact hfe
      | false =>
          simp [handlerFindLocally, hfe] at h
          exact ih p h

theorem handlerFindLocally_isSome (fe : String → Bool) (fn : String) :
    ∀ dirs : List String, (∃ d ∈ dirs, fe (joinPath d fn) = true) →
      (handlerFindLocally fe dirs fn).isSome = true := by
  intro dirs
  induction dirs with
  | nil =>
      rintro ⟨d, hd, _⟩
      simp at hd
  | cons a rest ih =>
      rintro ⟨d, hd, hfe⟩
      cases hfea : fe (joinPath a fn) with
      | true => simp [handlerFindLocally, hfea]
      | false =>
          simp only [handlerFindLocally, hfea, Bool.false_eq_true, if_false]
          apply ih
          rcases List.mem_cons.mp hd with h | h
          · subst h
            simp [hfea] at hfe
          · exact ⟨d, h, hfe⟩

/-- C1 counterexample: the empty string is outside the fixed channel set
{stable, beta, canary}, yet constructing an AndroidDependencies resolver
with it does not raise InvalidChannelError: the falsy guard on source
line 51 skips the validation block, so construction succeeds with the
channel field unset.  This refutes the claim that every channel string
outside the fixed set is rejected with no exception for empty values. -/
theorem C1_empty_channel_not_rejected :
    AndroidDeps.CHANNELS.contains "" = false ∧
    AndroidDeps.construct (some "") = Except.ok { channel := none } := by
  constructor
  · decide
  · rfl

/-- C1 amended: for every non-empty channel string outside the fixed set
{stable, beta, canary}, construction raises InvalidChannelError carrying
the message Unknown channel followed by the value; an empty or absent
channel skips validation and construction succeeds with no channel set. -/
theorem C1_invalid_channel_rejected (c : String) (h1 : c.isEmpty = false)
    (h2 : AndroidDeps.CHANNELS.contains c = false) :
    AndroidDeps.construct (some c) = Except.error ("Unknown channel " ++ c) ∧
    AndroidDeps.construct (some "") = Except.ok { channel := none } ∧
    AndroidDeps.construct none = Except.ok { channel := none } := by
  refine ⟨?_, rfl, rfl⟩
  have hmem : c ∉ AndroidDeps.CHANNELS := by simpa using h2
  simp [AndroidDeps.construct, AndroidDeps.truthy, h1, hmem]

/-- C1 witness: the amended theorem applied to the concrete channel
string dev, which is non-empty and outside the fixed set. -/
theorem C1_invalid_channel_witness :
    AndroidDeps.construct (some "dev") = Except.error ("Unknown channel " ++ "dev") ∧
    AndroidDeps.construct (some "") = Except.ok { channel := none } ∧
    AndroidDeps.construct none = Except.ok { channel := none } :=
  C1_invalid_channel_rejected "dev" (by decide) (by decide)

/-- C4 counterexample: with a successful transfer and a malformed listing
(the index parser fails with the message Could not parse index),
fetchVersions invokes its callback zero times and the parse failure
escapes the asynchronous completion handler as an uncaught exception;
the claim says such an error reaches the caller through the error-message
parameter of the callback. -/
theorem C4_parse_error_escapes :
    (AndroidDeps.fetchVersions none (Except.error "Could not parse index")).callbackCalls
        = [] ∧
    (AndroidDeps.fetchVersions none (Except.error "Could not parse index")).raised
        = some "Could not parse index" :=
  ⟨rfl, rfl⟩

/-- C4 amended: a network or transfer failure is delivered to the caller
through the error-message parameter of the completion callback, exactly
once and with no retry, both in fetchVersions and in download; but a
malformed listing that makes the index parser fail propagates out of
fetchVersions as an uncaught exception with the callback never invoked,
and a file-creation failure makes download raise FileCreationFailed with
the callback never invoked. -/
theorem C4_error_delivery :
    (∀ (e : String) (pr : AndroidDeps.ParseResult),
        (AndroidDeps.fetchVersions (some e) pr).callbackCalls = [(none, some e)] ∧
        (AndroidDeps.fetchVersions (some e) pr).raised = none) ∧
    (∀ msg : String,
        (AndroidDeps.fetchVersions none (Except.error msg)).callbackCalls = [] ∧
        (AndroidDeps.fetchVersions none (Except.error msg)).raised = some msg) ∧
    (∀ (env : AndroidDeps.DownloadEnv) (r : AndroidDeps.Resolver) (v dp e : String),
        AndroidDeps.handlerFindLocally env.fileExists
            (AndroidDeps.candidateDirs dp env.cacheDirEnv)
            (AndroidDeps.crosswalkFilename v) = none →
        env.createStreamOk = true → env.getResult = some e →
        (AndroidDeps.download env r v dp).callbackCalls = [(none, some e)] ∧
        (AndroidDeps.download env r v dp).raised = none) ∧
    (∀ (env : AndroidDeps.DownloadEnv) (r : AndroidDeps.Resolver) (v dp : String),
        AndroidDeps.handlerFindLocally env.fileExists
            (AndroidDeps.candidateDirs dp env.cacheDirEnv)
            (AndroidDeps.crosswalkFilename v) = none →
        env.createStreamOk = false →
        (AndroidDeps.download env r v dp).callbackCalls = [] ∧
        (AndroidDeps.download env r v dp).raised = some "FileCreationFailed") := by
  refine ⟨fun e pr => ⟨rfl, rfl⟩, fun msg => ⟨rfl, rfl⟩, ?_, ?_⟩
  · intro env r v dp e h1 h2 h3
    constructor <;> simp [AndroidDeps.download, h1, h2, h3]
  · intro env r v dp h1 h2
    constructor <;> simp [AndroidDeps.download, h1, h2]

/-- C5: findLocally checks the derived filename in the current directory
first, then in the parent directory, returns the first existing path, an
explicit null result when neither exists, and a returned path always
exists; the model is a pure function of the existence predicate, so it
never throws and has no filesystem effect. -/
theorem C5_findLocally_spec (fe : String → Bool) (version : String) :
    (fe (AndroidDeps.crosswalkFilename version) = true →
        AndroidDeps.findLocally fe version =
          some (AndroidDeps.crosswalkFilename version)) ∧
    (fe (AndroidDeps.crosswalkFilename version) = false →
      fe ("../" ++ AndroidDeps.crosswalkFilename version) = true →
        AndroidDeps.findLocally fe version =
          some ("../" ++ AndroidDeps.crosswalkFilename version)) ∧
    (AndroidDeps.findLocally fe version = none ↔
      fe (AndroidDeps.crosswalkFilename version) = false ∧
      fe ("../" ++ AndroidDeps.crosswalkFilename version) = false) ∧
    (∀ p, AndroidDeps.findLocally fe version = some p → fe p = true) := by
  cases h1 : fe (AndroidDeps.crosswalkFilename version) <;>
    cases h2 : fe ("../" ++ AndroidDeps.crosswalkFilename version) <;>
      simp [AndroidDeps.findLocally, h1, h2]

/-- C8: on a successful fetch, fetchVersions hands its callback exactly
the version list the index parser produced, unchanged and in the same
order, with no error and nothing raised. -/
theorem C8_fetch_preserves_versions (versions : List String) :
    (AndroidDeps.fetchVersions none (Except.ok versions)).callbackCalls =
        [(some versions, none)] ∧
    (AndroidDeps.fetchVersions none (Except.ok versions)).raised = none :=
  ⟨rfl, rfl⟩

/-- C10: the static CHANNELS property always reads as the fixed list
stable, beta, canary; every assignment through the setter is a no-op on
the module state, and after an arbitrary sequence of assignments the
getter still returns the fixed list. -/
theorem C10_CHANNELS_readonly :
    AndroidDeps.getCHANNELS AndroidDeps.initialModuleState =
        ["stable", "beta", "canary"] ∧
    (∀ (v : List String) (s : AndroidDeps.ModuleState),
        AndroidDeps.setCHANNELS v s = s) ∧
    (∀ vs : List (List String),
        AndroidDeps.getCHANNELS
            (vs.foldl (fun s v => AndroidDeps.setCHANNELS v s)
              AndroidDeps.initialModuleState) =
          ["stable", "beta", "canary"]) := by
  refine ⟨rfl, fun v s => rfl, fun vs => ?_⟩
  induction vs with
  | nil => rfl
  | cons a t ih => exact ih

/-- C2: when the artifact file for the requested version already exists
in one of the searched candidate directories, download passes the found
local path to its callback with no error, constructs no Downloader and
issues no network request. -/
theorem C2_cache_hit_no_network (env : AndroidDeps.DownloadEnv)
    (r : AndroidDeps.Resolver) (version defaultPath : String)
    (h : ∃ d ∈ AndroidDeps.candidateDirs defaultPath env.cacheDirEnv,
        env.fileExists (AndroidDeps.joinPath d (AndroidDeps.crosswalkFilename version))
          = true) :
    (AndroidDeps.download env r version defaultPath).downloaderConstructed = false ∧
    (AndroidDeps.download env r version defaultPath).urlRequested = none ∧
    (AndroidDeps.download env r version defaultPath).callbackCalls =
      [(AndroidDeps.handlerFindLocally env.fileExists
          (AndroidDeps.candidateDirs defaultPath env.cacheDirEnv)
          (AndroidDeps.crosswalkFilename version), none)] ∧
    (∀ p, AndroidDeps.handlerFindLocally env.fileExists
        (AndroidDeps.candidateDirs defaultPath env.cacheDirEnv)
        (AndroidDeps.crosswalkFilename version) = some p →
      env.fileExists p = true) := by
  have hs := AndroidDeps.handlerFindLocally_isSome env.fileExists
    (AndroidDeps.crosswalkFilename version)
    (AndroidDeps.candidateDirs defaultPath env.cacheDirEnv) h
  obtain ⟨p, hp⟩ := Option.isSome_iff_exists.mp hs
  refine ⟨?_, ?_, ?_,
    fun q hq => AndroidDeps.handlerFindLocally_found _ _ _ q hq⟩ <;>
    simp [AndroidDeps.download, hp]

/-- C2 witness: the theorem applied to a concrete state where the file
dl/crosswalk-1.0.zip exists in the destination directory dl. -/
theorem C2_cache_hit_witness :
    (AndroidDeps.download AndroidDeps.envHit { channel := some "stable" }
        "1.0" "dl").downloaderConstructed = false ∧
    (AndroidDeps.download AndroidDeps.envHit { channel := some "stable" }
        "1.0" "dl").urlRequested = none ∧
    (AndroidDeps.download AndroidDeps.envHit { channel := some "stable" }
        "1.0" "dl").callbackCalls =
      [(AndroidDeps.handlerFindLocally AndroidDeps.envHit.fileExists
          (AndroidDeps.candidateDirs "dl" AndroidDeps.envHit.cacheDirEnv)
          (AndroidDeps.crosswalkFilename "1.0"), none)] ∧
    (∀ p, AndroidDeps.handlerFindLocally AndroidDeps.envHit.fileExists
        (AndroidDeps.candidateDirs "dl" AndroidDeps.envHit.cacheDirEnv)
        (AndroidDeps.crosswalkFilename "1.0") = some p →
      AndroidDeps.envHit.fileExists p = true) :=
  C2_cache_hit_no_network AndroidDeps.envHit { channel := some "stable" } "1.0" "dl"
    ⟨"dl", by decide, by decide⟩

/-- C3: when no local copy exists, the stream is created and the transfer
reports an error, download does not run the finish step (no rename into
the final destination path) and the callback receives a null path
together with the error message. -/
theorem C3_transfer_error_not_finalized (env : AndroidDeps.DownloadEnv)
    (r : AndroidDeps.Resolver) (version defaultPath e : String)
    (h1 : AndroidDeps.handlerFindLocally env.fileExists
        (AndroidDeps.candidateDirs defaultPath env.cacheDirEnv)
        (AndroidDeps.crosswalkFilename version) = none)
    (h2 : env.createStreamOk = true)
    (h3 : env.getResult = some e) :
    (AndroidDeps.download env r version defaultPath).finishInvoked = false ∧
    (AndroidDeps.download env r version defaultPath).callbackCalls =
      [(none, some e)] := by
  constructor <;> simp [AndroidDeps.download, h1, h2, h3]

/-- C3 witness: the theorem applied to a concrete state with no local
copy and a transfer failing with the message Network error. -/
theorem C3_transfer_error_witness :
    (AndroidDeps.download AndroidDeps.envErr { channel := some "stable" }
        "1.0" "dl").finishInvoked = false ∧
    (AndroidDeps.download AndroidDeps.envErr { channel := some "stable" }
        "1.0" "dl").callbackCalls = [(none, some "Network error")] :=
  C3_transfer_error_not_finalized AndroidDeps.envErr { channel := some "stable" }
    "1.0" "dl" "Network error" (by decide) rfl rfl

/-- C6: the candidate list download searches is exactly the destination
directory, then the current directory, then the cache directory exactly
when the environment variable holds a value; the destination directory is
probed first and a hit there wins, and any returned path is one whose
existence check succeeded. -/
theorem C6_candidate_dirs_spec (dp : String) (cacheDirEnv : Option String) :
    AndroidDeps.candidateDirs dp none = [dp, ""] ∧
    (∀ d : String, d.isEmpty = false →
        AndroidDeps.candidateDirs dp (some d) = [dp, "", d]) ∧
    (∀ (fe : String → Bool) (fn : String), fe (AndroidDeps.joinPath dp fn) = true →
        AndroidDeps.handlerFindLocally fe (AndroidDeps.candidateDirs dp cacheDirEnv) fn =
          some (AndroidDeps.joinPath dp fn)) ∧
    (∀ (fe : String → Bool) (fn p : String),
        AndroidDeps.handlerFindLocally fe (AndroidDeps.candidateDirs dp cacheDirEnv) fn
            = some p →
        fe p = true) := by
  refine ⟨?_, ?_, ?_, fun fe fn p hp =>
    AndroidDeps.handlerFindLocally_found fe fn _ p hp⟩
  · simp [AndroidDeps.candidateDirs, AndroidDeps.truthy]
  · intro d hd
    simp [AndroidDeps.candidateDirs, AndroidDeps.truthy, hd]
  · intro fe fn hfe
    simp [AndroidDeps.candidateDirs, AndroidDeps.handlerFindLocally, hfe]

/-- C7: when no local copy is found and the destination stream is
created, the Downloader is constructed on exactly the canonical URL
BASE_URL, then the channel, a slash, the version, a slash, and the
derived filename crosswalk-version.zip. -/
theorem C7_download_url (env : AndroidDeps.DownloadEnv) (c version defaultPath : String)
    (h1 : AndroidDeps.handlerFindLocally env.fileExists
        (AndroidDeps.candidateDirs defaultPath env.cacheDirEnv)
        (AndroidDeps.crosswalkFilename version) = none)
    (h2 : env.createStreamOk = true) :
    (AndroidDeps.download env { channel := some c } version defaultPath).urlRequested =
      some (AndroidDeps.BASE_URL ++ c ++ "/" ++ version ++ "/" ++
        ("crosswalk-" ++ version ++ ".zip")) := by
  have h1x : AndroidDeps.handlerFindLocally env.fileExists
      (AndroidDeps.candidateDirs defaultPath env.cacheDirEnv)
      ("crosswalk-" ++ version ++ ".zip") = none := h1
  cases h3 : env.getResult <;>
    simp [AndroidDeps.download, AndroidDeps.channelStr, AndroidDeps.crosswalkFilename,
      h1x, h2, h3]

/-- C7 witness: the theorem applied to a concrete state with no local
copy, for channel stable and version 1.2.3. -/
theorem C7_download_url_witness :
    (AndroidDeps.download AndroidDeps.envMissOk { channel := some "stable" }
        "1.2.3" "out").urlRequested =
      some (AndroidDeps.BASE_URL ++ "stable" ++ "/" ++ "1.2.3" ++ "/" ++
        ("crosswalk-" ++ "1.2.3" ++ ".zip")) :=
  C7_download_url AndroidDeps.envMissOk "stable" "1.2.3" "out" (by decide) rfl

/-- C9 counterexample: with no local copy and a failing stream creation,
download raises FileCreationFailed and its completion callback is invoked
zero times, refuting the claim that every call to download invokes the
callback exactly once. -/
theorem C9_callback_skipped_on_stream_failure :
    (AndroidDeps.download AndroidDeps.envNoStream { channel := some "stable" }
        "1.0" "out").callbackCalls = [] ∧
    (AndroidDeps.download AndroidDeps.envNoStream { channel := some "stable" }
        "1.0" "out").raised = some "FileCreationFailed" := by
  constructor <;> decide

/-- C9 amended: every call to download that does not raise invokes its
completion callback exactly once, and the two outcomes are mutually
exclusive: either a path with no error message, or a null path with an
error message. -/
theorem C9_single_callback (env : AndroidDeps.DownloadEnv)
    (r : AndroidDeps.Resolver) (version defaultPath : String)
    (h : (AndroidDeps.download env r version defaultPath).raised = none) :
    (AndroidDeps.download env r version defaultPath).callbackCalls.length = 1 ∧
    ∀ pe ∈ (AndroidDeps.download env r version defaultPath).callbackCalls,
      (∃ p, pe = (some p, none)) ∨ ∃ e, pe = (none, some e) := by
  cases hl : AndroidDeps.handlerFindLocally env.fileExists
      (AndroidDeps.candidateDirs defaultPath env.cacheDirEnv)
      (AndroidDeps.crosswalkFilename version) with
  | some p =>
      constructor
      · simp [AndroidDeps.download, hl]
      · intro pe hpe
        simp [AndroidDeps.download, hl] at hpe
        exact Or.inl ⟨p, hpe⟩
  | none =>
      cases hcs : env.createStreamOk with
      | false =>
          exfalso
          simp [AndroidDeps.download, hl, hcs] at h
      | true =>
          cases hg : env.getResult with
          | some e =>
              constructor
              · simp [AndroidDeps.download, hl, hcs, hg]
              · intro pe hpe
                simp [AndroidDeps.download, hl, hcs, hg] at hpe
                exact Or.inr ⟨e, hpe⟩
          | none =>
              constructor
              · simp [AndroidDeps.download, hl, hcs, hg]
              · intro pe hpe
                simp [AndroidDeps.download, hl, hcs, hg] at hpe
                exact Or.inl ⟨_, hpe⟩

/-- C9 witness: the amended theorem applied to the concrete cache-hit
state, where nothing is raised. -/
theorem C9_single_callback_witness :
    (AndroidDeps.download AndroidDeps.envHit { channel := some "stable" }
        "1.0" "dl").callbackCalls.length = 1 ∧
    ∀ pe ∈ (AndroidDeps.download AndroidDeps.envHit { channel := some "stable" }
        "1.0" "dl").callbackCalls,
      (∃ p, pe = (some p, none)) ∨ ∃ e, pe = (none, some e) :=
  C9_single_callback AndroidDeps.envHit { channel := some "stable" } "1.0" "dl"
    (by decide)

end AndroidDeps
